import Mathlib

/-!
Verification development for the backwards-compatible MCP client
(`src/examples/client/streamableHttpWithSseFallbackClient.ts`).

The file shallowly embeds the two pieces of the program with real control
flow: the dual-transport connection negotiator
(`connectWithBackwardsCompatibility`) and the OAuth authorization-code
broker (the HTTP callback handler installed by the provider's
authorization callback).  External collaborators (the RPC client object,
the two transport classes, Node's HTTP server) are modelled by their
observable effects: connect outcomes are inputs (`ServerBehavior`), object
construction and connection attempts are recorded as events, and the
Node `url.parse(req.url, true)` query parsing is reproduced at the level
of character lists (percent-decoding is omitted: it never turns an empty
value into a non-empty one or vice versa, so it does not affect any
property below).
-/

namespace SseFallbackClient

/-! ### Character-list utilities (executable, structural) -/

/-- Drop characters up to and including the first occurrence of `c`;
`none` when `c` does not occur.  Used for `?` (query start). -/
def afterChar (c : Char) : List Char → Option (List Char)
  | [] => none
  | x :: xs => if x = c then some xs else afterChar c xs

/-- Split a character list on a separator character. -/
def splitOnCharAux (c : Char) : List Char → List Char → List (List Char)
  | [], acc => [acc.reverse]
  | x :: xs, acc =>
    if x = c then acc.reverse :: splitOnCharAux c xs []
    else splitOnCharAux c xs (x :: acc)

def splitOnChar (c : Char) (l : List Char) : List (List Char) :=
  splitOnCharAux c l []

/-- Split a character list at the first occurrence of `c` into
(before, after); when `c` is absent the second component is `[]`.
Used for `=` inside a query pair. -/
def splitFirstAt (c : Char) : List Char → List Char × List Char
  | [] => ([], [])
  | x :: xs =>
    if x = c then ([], xs)
    else
      let p := splitFirstAt c xs
      (x :: p.1, p.2)

/-- Does `pat` occur at the head of `l`? -/
def leadsWith : List Char → List Char → Bool
  | [], _ => true
  | _ :: _, [] => false
  | p :: ps, x :: xs => p = x && leadsWith ps xs

/-- Does `pat` occur as a contiguous segment of `l`? -/
def hasSeg (pat : List Char) : List Char → Bool
  | [] => pat.isEmpty
  | x :: xs => leadsWith pat (x :: xs) || hasSeg pat xs

/-- String-level substring test built on `hasSeg`. -/
def strContains (hay pat : String) : Bool :=
  hasSeg pat.data hay.data

/-! ### Query-string parsing, after Node `url.parse(req.url, true)`

`url.parse(s, true)` takes everything after the first `?` (and before a
`#`), splits on `&`, skips empty segments, splits each segment at the
first `=` (a missing `=` yields the empty value), and aggregates repeated
keys into an array value.  JavaScript truthiness of the resulting value
decides the handler's branch: a string is truthy iff non-empty, an array
is always truthy. -/

/-- A query value as produced by Node's querystring parsing: a single
string, or an array when the key is repeated. -/
inductive QueryVal where
  | str (s : String)
  | arr (l : List String)
  deriving Repr, DecidableEq

/-- JavaScript truthiness of a query value (`if (code)` in the source). -/
def truthy : QueryVal → Bool
  | .str s => !(s = "")
  | .arr _ => true

/-- Raw key/value pairs of the query part of a URL string, in order,
before aggregation of repeated keys. -/
def rawQueryPairs (url : String) : List (String × String) :=
  match afterChar '?' url.data with
  | none => []
  | some q =>
    let q := q.takeWhile (fun c => !(c = '#'))
    (splitOnChar '&' q).filterMap fun seg =>
      if seg.isEmpty then none
      else
        let p := splitFirstAt '=' seg
        some (String.mk p.1, String.mk p.2)

/-- Insert one raw pair into the aggregated association list, turning a
repeated key into an array value exactly as Node's querystring does. -/
def qInsert : List (String × QueryVal) → String → String → List (String × QueryVal)
  | [], k, v => [(k, .str v)]
  | (k', qv) :: rest, k, v =>
    if k' = k then
      match qv with
      | .str s => (k', .arr [s, v]) :: rest
      | .arr l => (k', .arr (l ++ [v])) :: rest
    else (k', qv) :: qInsert rest k v

/-- The aggregated query object of `url.parse(url, true).query`. -/
def parseQuery (url : String) : List (String × QueryVal) :=
  (rawQueryPairs url).foldl (fun acc p => qInsert acc p.1 p.2) []

/-- Property lookup on the query object (`parsedUrl.query.code`);
`none` models the JavaScript `undefined`. -/
def qLookup : List (String × QueryVal) → String → Option QueryVal
  | [], _ => none
  | (k', v) :: rest, k => if k' = k then some v else qLookup rest k

/-! ### The OAuth callback HTTP handler (source lines 110-143) -/

/-- What the pending `codePromise` is settled to by the handler. -/
inductive Resolution where
  | resolved (code : QueryVal)
  | rejected (msg : String)
  deriving Repr, DecidableEq

/-- Observable effect of one invocation of the `http.createServer`
request handler: the HTTP response written, how the pending promise is
settled, and whether (and with which delay, in ms) a `server.close()`
was scheduled. -/
structure HandlerOutcome where
  status : Nat
  contentType : String
  body : String
  resolution : Resolution
  closeDelay : Option Nat
  deriving Repr, DecidableEq

def successBody : String :=
  "
              <html>
                <body>
                  <h1>Authorization Successful</h1>
                  <p>You can close this window now.</p>
                  <script>window.close();</script>
                </body>
              </html>
            "

def failureBody : String :=
  "
              <html>
                <body>
                  <h1>Authorization Failed</h1>
                  <p>No authorization code was provided.</p>
                </body>
              </html>
            "

/-- One invocation of the request handler installed on the callback
server.  `reqUrl` is `req.url` (`none` models `undefined`; the source
falls back to `''`).  The branch test is JavaScript truthiness of
`parsedUrl.query.code`. -/
def handleCallbackRequest (reqUrl : Option String) : HandlerOutcome :=
  let parsedQuery := parseQuery (reqUrl.getD "")
  match qLookup parsedQuery "code" with
  | some code =>
    if truthy code then
      { status := 200, contentType := "text/html", body := successBody,
        resolution := .resolved code, closeDelay := some 1000 }
    else
      { status := 400, contentType := "text/html", body := failureBody,
        resolution := .rejected "No authorization code provided", closeDelay := none }
  | none =>
    { status := 400, contentType := "text/html", body := failureBody,
      resolution := .rejected "No authorization code provided", closeDelay := none }

/-- Does the handler resolve (rather than reject) the pending promise? -/
def isResolvedB (h : HandlerOutcome) : Bool :=
  match h.resolution with
  | .resolved _ => true
  | .rejected _ => false

/-- Reading of the specification's branch condition, stated on the raw
query pairs: the query string contains a `code` parameter with a
non-empty value.  This is the spec's wording, kept separate from the
source's truthiness test so the two can be compared. -/
def specHasNonEmptyCodeParam (reqUrl : Option String) : Bool :=
  (rawQueryPairs (reqUrl.getD "")).any fun kv => kv.1 = "code" && !(kv.2 = "")

/-- The source's own branch condition, JavaScript truthiness of
`parsedUrl.query.code`: `undefined` and the empty string are falsy,
every other string and every array value is truthy. -/
def codeTruthy (reqUrl : Option String) : Bool :=
  match qLookup (parseQuery (reqUrl.getD "")) "code" with
  | some v => truthy v
  | none => false

/-! ### Browser launch (source lines 148-150) -/

/-- Platform-conditional open command:
`process.platform === 'win32' ? 'start' : process.platform === 'darwin' ? 'open' : 'xdg-open'`. -/
def openCommand (platform : String) : String :=
  if platform = "win32" then "start"
  else if platform = "darwin" then "open"
  else "xdg-open"

/-- The shell command line handed to `exec`:
the template literal `${openCommand} "${redirectUrl.toString()}"`. -/
def browserLaunchCommand (platform url : String) : String :=
  openCommand platform ++ " \"" ++ url ++ "\""

/-- Split a shell command line into words the way `/bin/sh` would for
a command containing only plain characters and double quotes: double
quotes toggle quoting (and are removed), unquoted spaces separate words.
Arguments: input characters, current word accumulator (reversed), inside
a quoted region?, has the current word started? -/
def shellWordsAux : List Char → List Char → Bool → Bool → List (List Char)
  | [], acc, _, started => if started then [acc.reverse] else []
  | c :: cs, acc, inQ, started =>
    if c = '"' then shellWordsAux cs acc (!inQ) true
    else if c = ' ' && !inQ then
      if started then acc.reverse :: shellWordsAux cs [] false false
      else shellWordsAux cs [] false false
    else shellWordsAux cs (c :: acc) inQ true

/-- The argv a shell builds from a command line (command word first). -/
def shellWords (s : String) : List String :=
  (shellWordsAux s.data [] false false).map String.mk

/-! ### OAuth provider data and the broker (source lines 100-158) -/

structure ClientMetadata where
  redirect_uris : List String
  deriving Repr, DecidableEq

/-- The static data the `InMemoryOAuthClientProvider` is constructed
with: the redirect URL and the client registration metadata. -/
structure InMemoryOAuthClientProvider where
  redirectUrl : String
  metadata : ClientMetadata
  deriving Repr, DecidableEq

/-- The provider instance constructed by
`connectWithBackwardsCompatibility` (source lines 100-103). -/
def provider : InMemoryOAuthClientProvider :=
  { redirectUrl := "http://localhost:8090/callback"
    metadata := { redirect_uris := ["http://localhost:8090/callback"] } }

/-- Extract the port of a `scheme://host:port/path` URI. -/
def afterDoubleSlash : List Char → Option (List Char)
  | [] => none
  | '/' :: '/' :: rest => some rest
  | _ :: rest => afterDoubleSlash rest

def digitsToNat : List Char → Option Nat
  | [] => none
  | l => l.foldl (fun acc c => match acc with
      | none => none
      | some n => if c.isDigit then some (n * 10 + (c.toNat - 48)) else none)
      (some 0)

def uriPort (s : String) : Option Nat :=
  match afterDoubleSlash s.data with
  | none => none
  | some rest =>
    let authority := rest.takeWhile (fun c => !(c = '/'))
    match afterChar ':' authority with
    | none => none
    | some p => digitsToNat p

/-- Observable effects of one invocation of the provider's authorization
callback (the broker): the port the listener binds, the command line
handed to `exec`, and the outcome of handling the first inbound request.
`launchFails` is the (unobserved) outcome of the `exec`ed browser-launch
subprocess: `exec` is called without a completion callback, so the
launch outcome is bound to nothing in the source; it is still threaded
here as an input so independence from it can be stated. -/
structure BrokerRun where
  listenPort : Nat
  launchCmd : String
  firstRequest : HandlerOutcome
  deriving Repr, DecidableEq

def oauthCallbackFlow (platform authUrl : String) (launchFails : Bool)
    (reqUrl : Option String) : BrokerRun :=
  let _launchOutcome := launchFails
  { listenPort := 8090
    launchCmd := browserLaunchCommand platform authUrl
    firstRequest := handleCallbackRequest reqUrl }

/-! ### The transport negotiator, `connectWithBackwardsCompatibility`
(source lines 81-206)

The two transports' `connect` calls are external I/O; a `ServerBehavior`
fixes their outcomes (an `err` carries the rendered form of the rejection
value, as string-interpolated by the source's log templates).  Object
construction and connection attempts are recorded as an event trace in
program order; `new Client(...)` allocations are distinguished by an
allocation id (0 for the client of the modern attempt, 1 for the
`sseClient` of the legacy attempt), reflecting that the source constructs
two distinct objects. -/

inductive TransportKind where
  | streamableHttp
  | sse
  deriving Repr, DecidableEq

structure Client where
  name : String
  version : String
  allocId : Nat
  deriving Repr, DecidableEq

structure Transport where
  kind : TransportKind
  baseUrl : String
  deriving Repr, DecidableEq

/-- The record returned on success: `{ client, transport, transportType }`. -/
structure NegotiationResult where
  client : Client
  transport : Transport
  transportType : String
  deriving Repr, DecidableEq

inductive ConnectOutcome where
  | ok
  | err (msg : String)
  deriving Repr, DecidableEq

/-- Outcomes of the modern (Streamable HTTP) and legacy (SSE) `connect`
attempts against the server under test. -/
structure ServerBehavior where
  modern : ConnectOutcome
  legacy : ConnectOutcome
  deriving Repr, DecidableEq

inductive Event where
  | constructClient (allocId : Nat)
  | constructTransport (kind : TransportKind) (baseUrl : String)
  | connectAttempt (kind : TransportKind)
  | connectDone (kind : TransportKind) (success : Bool)
  deriving Repr, DecidableEq

inductive NegOutcome where
  | success (r : NegotiationResult)
  | failure (msg : String)
  deriving Repr, DecidableEq

/-- The `console.error` template of the double-failure branch (source
line 202), written as the concatenation the template literal denotes,
with the two transport-kind labels as separate segments. -/
def combinedErrorMessage (e sseError : String) : String :=
  "Failed to connect with either transport method:\n1. "
    ++ "Streamable HTTP error: " ++ e
    ++ "\n2. " ++ "SSE error: " ++ sseError

/-- One run of `connectWithBackwardsCompatibility`: the event trace,
the `console.log` lines, the `console.error` lines, and the returned
value or thrown error. -/
structure NegotiationRun where
  events : List Event
  logs : List String
  errorLogs : List String
  result : NegOutcome
  deriving Repr, DecidableEq

/-- Shallow embedding of `connectWithBackwardsCompatibility(url)`.
`new URL(url)` is modelled as the identity on the URL string (its
normalisation plays no role in the properties below); both transports
are constructed on the same `baseUrl`, as in the source. -/
def connectWithBackwardsCompatibility (b : ServerBehavior) (url : String) :
    NegotiationRun :=
  let client : Client :=
    { name := "backwards-compatible-client", version := "1.0.0", allocId := 0 }
  let baseUrl := url
  let streamableTransport : Transport :=
    { kind := .streamableHttp, baseUrl := baseUrl }
  match b.modern with
  | .ok =>
    { events := [.constructClient 0,
                 .constructTransport .streamableHttp baseUrl,
                 .connectAttempt .streamableHttp,
                 .connectDone .streamableHttp true]
      logs := ["1. Trying Streamable HTTP transport first...",
               "Successfully connected using modern Streamable HTTP transport."]
      errorLogs := []
      result := .success
        { client := client, transport := streamableTransport,
          transportType := "streamable-http" } }
  | .err e =>
    let sseTransport : Transport := { kind := .sse, baseUrl := baseUrl }
    let sseClient : Client :=
      { name := "backwards-compatible-client", version := "1.0.0", allocId := 1 }
    match b.legacy with
    | .ok =>
      { events := [.constructClient 0,
                   .constructTransport .streamableHttp baseUrl,
                   .connectAttempt .streamableHttp,
                   .connectDone .streamableHttp false,
                   .constructTransport .sse baseUrl,
                   .constructClient 1,
                   .connectAttempt .sse,
                   .connectDone .sse true]
        logs := ["1. Trying Streamable HTTP transport first...",
                 "StreamableHttp transport connection failed: " ++ e,
                 "2. Falling back to deprecated HTTP+SSE transport...",
                 "Successfully connected using deprecated HTTP+SSE transport."]
        errorLogs := []
        result := .success
          { client := sseClient, transport := sseTransport,
            transportType := "sse" } }
    | .err sseError =>
      { events := [.constructClient 0,
                   .constructTransport .streamableHttp baseUrl,
                   .connectAttempt .streamableHttp,
                   .connectDone .streamableHttp false,
                   .constructTransport .sse baseUrl,
                   .constructClient 1,
                   .connectAttempt .sse,
                   .connectDone .sse false]
        logs := ["1. Trying Streamable HTTP transport first...",
                 "StreamableHttp transport connection failed: " ++ e,
                 "2. Falling back to deprecated HTTP+SSE transport..."]
        errorLogs := [combinedErrorMessage e sseError]
        result := .failure "Could not connect to server with any available transport" }

/-! ### Command-line argument handling (source lines 31-32) -/

def defaultServerUrl : String := "http://localhost:3000/mcp"

/-- Embedding of `const serverUrl = args[0] || 'http://localhost:3000/mcp'`:
`||` falls through both on a missing and on an empty (falsy) first
argument. -/
def serverUrl (args : List String) : String :=
  match args.head? with
  | some a => if a = "" then defaultServerUrl else a
  | none => defaultServerUrl

/-! ## Helper lemmas -/

theorem strData_append (s t : String) : (s ++ t).data = s.data ++ t.data := by
  cases s; cases t; rfl

theorem strMk_data (s : String) : String.mk s.data = s := by
  cases s; rfl

theorem leadsWith_append (pat rest : List Char) :
    leadsWith pat (pat ++ rest) = true := by
  induction pat with
  | nil => rfl
  | cons p ps ih => simp [leadsWith, ih]

theorem hasSeg_of_leadsWith (pat l : List Char) (h : leadsWith pat l = true) :
    hasSeg pat l = true := by
  cases l with
  | nil =>
    cases pat with
    | nil => rfl
    | cons p ps => simp [leadsWith] at h
  | cons x xs => simp [hasSeg, h]

theorem hasSeg_middle (pat a b : List Char) :
    hasSeg pat (a ++ (pat ++ b)) = true := by
  induction a with
  | nil => exact hasSeg_of_leadsWith pat (pat ++ b) (leadsWith_append pat b)
  | cons x xs ih => simp [hasSeg, ih]

theorem shellWordsAux_space (l acc : List Char) :
    shellWordsAux (' ' :: l) acc false true = acc.reverse :: shellWordsAux l [] false false := by
  simp [shellWordsAux]

theorem shellWordsAux_quote (l acc : List Char) (inQ started : Bool) :
    shellWordsAux ('"' :: l) acc inQ started = shellWordsAux l acc (!inQ) true := by
  simp [shellWordsAux]

theorem shellWordsAux_plain (c : Char) (l acc : List Char) (inQ started : Bool)
    (h1 : ¬ c = '"') (h2 : ¬ c = ' ') :
    shellWordsAux (c :: l) acc inQ started = shellWordsAux l (c :: acc) inQ true := by
  simp [shellWordsAux, h1, h2]

theorem shellWordsAux_inQuote (c : Char) (l acc : List Char) (started : Bool)
    (h1 : ¬ c = '"') :
    shellWordsAux (c :: l) acc true started = shellWordsAux l (c :: acc) true true := by
  simp [shellWordsAux, h1]

theorem shellWordsAux_quoted (cs : List Char) (acc : List Char)
    (h : cs.all (fun c => !(c = '"')) = true) :
    shellWordsAux (cs ++ ['"']) acc true true = [acc.reverse ++ cs] := by
  induction cs generalizing acc with
  | nil => simp [shellWordsAux]
  | cons c cs ih =>
    simp only [List.all_cons, Bool.and_eq_true, Bool.not_eq_true', decide_eq_false_iff_not] at h
    rw [List.cons_append, shellWordsAux_inQuote c _ _ _ h.1, ih _ h.2]
    simp

theorem shellWordsAux_word (ws rest acc : List Char)
    (h : ws.all (fun c => !(c = '"' || c = ' ')) = true) :
    shellWordsAux (ws ++ rest) acc false true
      = shellWordsAux rest (ws.reverse ++ acc) false true := by
  induction ws generalizing acc with
  | nil => simp
  | cons c cs ih =>
    simp only [List.all_cons, Bool.and_eq_true, Bool.not_eq_true', Bool.or_eq_false_iff,
      decide_eq_false_iff_not] at h
    rw [List.cons_append, shellWordsAux_plain c _ _ _ _ h.1.1 h.1.2, ih _ ?hall]
    · simp
    case hall =>
      simp only [List.all_eq_true] at h ⊢
      intro x hx
      simpa using h.2 x hx

theorem shellWords_command (w url : String)
    (hw : w.data.all (fun c => !(c = '"' || c = ' ')) = true)
    (hne : ¬ w.data = [])
    (hu : url.data.all (fun c => !(c = '"')) = true) :
    shellWords (w ++ " \"" ++ url ++ "\"") = [w, url] := by
  have hdata : (w ++ " \"" ++ url ++ "\"").data
      = w.data ++ (' ' :: '"' :: (url.data ++ ['"'])) := by
    have h1 : (" \"" : String).data = [' ', '"'] := by decide
    have h2 : ("\"" : String).data = ['"'] := by decide
    simp [strData_append, h1, h2]
  unfold shellWords
  rw [hdata]
  cases hcons : w.data with
  | nil => exact (hne hcons).elim
  | cons c cs =>
    rw [hcons] at hw
    simp only [List.all_cons, Bool.and_eq_true, Bool.not_eq_true', Bool.or_eq_false_iff,
      decide_eq_false_iff_not] at hw
    rw [List.cons_append, shellWordsAux_plain c _ _ _ _ hw.1.1 hw.1.2,
      shellWordsAux_word cs _ [c] ?hall, shellWordsAux_space, shellWordsAux_quote,
      Bool.not_false, shellWordsAux_quoted url.data [] hu]
    · simp only [List.reverse_append, List.reverse_reverse, List.reverse_cons,
        List.reverse_nil, List.nil_append, List.map_cons, List.map_nil,
        List.singleton_append]
      rw [← hcons, strMk_data, strMk_data]
    case hall =>
      simp only [List.all_eq_true] at hw ⊢
      intro x hx
      simpa using hw.2 x hx

/-! ## Claim theorems -/

/-- C1, counterexample: when both connect attempts fail (modern failure
`"modern boom"`, legacy failure `"legacy boom"`), the error propagated
to the caller is the fixed string
`"Could not connect to server with any available transport"`, which
contains neither underlying failure message — the claim as stated is
false. -/
theorem connect_bothFail_error_counterexample :
    (connectWithBackwardsCompatibility
        ⟨.err "modern boom", .err "legacy boom"⟩ "http://srv").result
      = .failure "Could not connect to server with any available transport" ∧
    strContains "Could not connect to server with any available transport" "modern boom"
      = false ∧
    strContains "Could not connect to server with any available transport" "legacy boom"
      = false := by
  decide

/-- C1 (amended): if both the modern and legacy connect attempts fail,
the combined diagnostic containing both underlying failure messages,
labeled by transport kind, is emitted on the error log, while the error
propagated to the caller is the fixed message
`"Could not connect to server with any available transport"`. -/
theorem connect_bothFail_combined (b : ServerBehavior) (url e sseError : String)
    (hm : b.modern = .err e) (hl : b.legacy = .err sseError) :
    (connectWithBackwardsCompatibility b url).result
      = .failure "Could not connect to server with any available transport" ∧
    (connectWithBackwardsCompatibility b url).errorLogs
      = [combinedErrorMessage e sseError] ∧
    strContains (combinedErrorMessage e sseError) "Streamable HTTP error: " = true ∧
    strContains (combinedErrorMessage e sseError) e = true ∧
    strContains (combinedErrorMessage e sseError) "SSE error: " = true ∧
    strContains (combinedErrorMessage e sseError) sseError = true := by
  refine ⟨?_, ?_, ?_, ?_, ?_, ?_⟩
  · simp [connectWithBackwardsCompatibility, hm, hl]
  · simp [connectWithBackwardsCompatibility, hm, hl]
  · unfold strContains combinedErrorMessage
    simp only [strData_append, List.append_assoc]
    exact hasSeg_middle _ _ _
  · unfold strContains combinedErrorMessage
    simp only [strData_append, List.append_assoc]
    simpa [List.append_assoc] using
      hasSeg_middle e.data
        (("Failed to connect with either transport method:\n1. " : String).data
          ++ ("Streamable HTTP error: " : String).data)
        (("\n2. " : String).data ++ (("SSE error: " : String).data ++ sseError.data))
  · unfold strContains combinedErrorMessage
    simp only [strData_append, List.append_assoc]
    simpa [List.append_assoc] using
      hasSeg_middle ("SSE error: " : String).data
        (("Failed to connect with either transport method:\n1. " : String).data
          ++ (("Streamable HTTP error: " : String).data
            ++ (e.data ++ ("\n2. " : String).data)))
        sseError.data
  · unfold strContains combinedErrorMessage
    simp only [strData_append, List.append_assoc]
    simpa [List.append_assoc] using
      hasSeg_middle sseError.data
        (("Failed to connect with either transport method:\n1. " : String).data
          ++ (("Streamable HTTP error: " : String).data
            ++ (e.data ++ (("\n2. " : String).data ++ ("SSE error: " : String).data))))
        []

/-- C1, witness: the amended statement at concrete failure messages. -/
theorem connect_bothFail_combined_witness :
    (ServerBehavior.mk (.err "EM") (.err "ES")).modern = .err "EM" ∧
    (ServerBehavior.mk (.err "EM") (.err "ES")).legacy = .err "ES" ∧
    ((connectWithBackwardsCompatibility ⟨.err "EM", .err "ES"⟩ "http://srv").result
        = .failure "Could not connect to server with any available transport" ∧
      (connectWithBackwardsCompatibility ⟨.err "EM", .err "ES"⟩ "http://srv").errorLogs
        = [combinedErrorMessage "EM" "ES"] ∧
      strContains (combinedErrorMessage "EM" "ES") "Streamable HTTP error: " = true ∧
      strContains (combinedErrorMessage "EM" "ES") "EM" = true ∧
      strContains (combinedErrorMessage "EM" "ES") "SSE error: " = true ∧
      strContains (combinedErrorMessage "EM" "ES") "ES" = true) :=
  ⟨rfl, rfl, connect_bothFail_combined ⟨.err "EM", .err "ES"⟩ "http://srv" "EM" "ES" rfl rfl⟩

/-- C2, counterexample: for the request URL `/callback?code=&code=`, the
query string contains only empty-valued `code` parameters, yet the
handler resolves the pending promise (Node's query parsing turns the
repeated key into an array, which is truthy in JavaScript) — the
"resolves exactly when a non-empty `code` parameter is present" claim is
false as stated. -/
theorem handleCallback_nonEmptyCode_counterexample :
    isResolvedB (handleCallbackRequest (some "/callback?code=&code=")) = true ∧
    specHasNonEmptyCodeParam (some "/callback?code=&code=") = false := by
  decide

/-- C2 (amended): the handler resolves with the query's `code` value
exactly when that value is truthy — a non-empty string, or an array
arising from a repeated `code` parameter; otherwise it rejects with
"No authorization code provided" and writes a response with status 400
(in the 400 class). -/
theorem handleCallback_resolution (reqUrl : Option String) :
    isResolvedB (handleCallbackRequest reqUrl) = codeTruthy reqUrl ∧
    (∀ v, qLookup (parseQuery (reqUrl.getD "")) "code" = some v → truthy v = true →
        handleCallbackRequest reqUrl
          = { status := 200, contentType := "text/html", body := successBody,
              resolution := .resolved v, closeDelay := some 1000 }) ∧
    (codeTruthy reqUrl = false →
        handleCallbackRequest reqUrl
          = { status := 400, contentType := "text/html", body := failureBody,
              resolution := .rejected "No authorization code provided",
              closeDelay := none } ∧
        400 ≤ (handleCallbackRequest reqUrl).status ∧
        (handleCallbackRequest reqUrl).status < 500) := by
  refine ⟨?_, ?_, ?_⟩
  · cases h : qLookup (parseQuery (reqUrl.getD "")) "code" with
    | none => simp [isResolvedB, handleCallbackRequest, codeTruthy, h]
    | some v =>
      cases ht : truthy v <;>
        simp [isResolvedB, handleCallbackRequest, codeTruthy, h, ht]
  · intro v hv ht
    simp [handleCallbackRequest, hv, ht]
  · intro hfalse
    have hfail : handleCallbackRequest reqUrl
        = { status := 400, contentType := "text/html", body := failureBody,
            resolution := .rejected "No authorization code provided",
            closeDelay := none } := by
      unfold codeTruthy at hfalse
      cases h : qLookup (parseQuery (reqUrl.getD "")) "code" with
      | none => simp [handleCallbackRequest, h]
      | some v =>
        rw [h] at hfalse
        have hv : truthy v = false := hfalse
        simp [handleCallbackRequest, h, hv]
    exact ⟨hfail, by rw [hfail], by rw [hfail]; decide⟩

/-- C2, witness: a redirect carrying `code=abc123` resolves with
`"abc123"`; a redirect with no query rejects with status 400. -/
theorem handleCallback_resolution_witness :
    qLookup (parseQuery ((some "/callback?code=abc123").getD "")) "code"
      = some (.str "abc123") ∧
    truthy (.str "abc123") = true ∧
    handleCallbackRequest (some "/callback?code=abc123")
      = { status := 200, contentType := "text/html", body := successBody,
          resolution := .resolved (.str "abc123"), closeDelay := some 1000 } ∧
    codeTruthy (some "/callback") = false ∧
    (handleCallbackRequest (some "/callback")
        = { status := 400, contentType := "text/html", body := failureBody,
            resolution := .rejected "No authorization code provided",
            closeDelay := none } ∧
      400 ≤ (handleCallbackRequest (some "/callback")).status ∧
      (handleCallbackRequest (some "/callback")).status < 500) :=
  ⟨by decide, by decide,
    (handleCallback_resolution (some "/callback?code=abc123")).2.1
      (.str "abc123") (by decide) (by decide),
    by decide,
    (handleCallback_resolution (some "/callback")).2.2 (by decide)⟩

/-- C3, counterexample: after a failure request (no `code` in the query)
the handler schedules no `server.close()` — the listener is not closed
and the port is not released, contradicting the claim that the listener
is closed after one request "whether success or failure". -/
theorem listener_close_counterexample :
    (handleCallbackRequest (some "/callback")).closeDelay = none ∧
    isResolvedB (handleCallbackRequest (some "/callback")) = false := by
  decide

/-- C3 (amended): listener shutdown is scheduled (with a 1000 ms delay)
exactly when the handled request carried a truthy `code` and the pending
promise was resolved; after a failure request the listener is not closed
and remains open. -/
theorem listener_close_only_on_success (reqUrl : Option String) :
    ((handleCallbackRequest reqUrl).closeDelay).isSome
      = isResolvedB (handleCallbackRequest reqUrl) ∧
    ((handleCallbackRequest reqUrl).closeDelay = none ∨
      (handleCallbackRequest reqUrl).closeDelay = some 1000) := by
  cases h : qLookup (parseQuery (reqUrl.getD "")) "code" with
  | none => simp [handleCallbackRequest, isResolvedB, h]
  | some v =>
    cases ht : truthy v <;> simp [handleCallbackRequest, isResolvedB, h, ht]

/-- C4: whenever the modern (Streamable HTTP) connect attempt fails —
with any failure message, no subtype distinguished — the event trace
contains exactly one legacy (SSE) connect attempt, and every event before
it includes the definitive failure of the modern attempt: the trace
decomposes as `pre ++ legacy-attempt :: post` with no legacy attempt in
`pre` or `post` and the modern failure event in `pre`. -/
theorem legacy_attempt_once_after_modern_failure (b : ServerBehavior) (url e : String)
    (hm : b.modern = .err e) :
    ∃ pre post,
      (connectWithBackwardsCompatibility b url).events
        = pre ++ Event.connectAttempt .sse :: post ∧
      Event.connectAttempt .sse ∉ pre ∧
      Event.connectAttempt .sse ∉ post ∧
      Event.connectDone .streamableHttp false ∈ pre := by
  cases hl : b.legacy with
  | ok =>
    refine ⟨[.constructClient 0, .constructTransport .streamableHttp url,
             .connectAttempt .streamableHttp, .connectDone .streamableHttp false,
             .constructTransport .sse url, .constructClient 1],
            [.connectDone .sse true], ?_, ?_, ?_, ?_⟩ <;>
      simp [connectWithBackwardsCompatibility, hm, hl]
  | err sseError =>
    refine ⟨[.constructClient 0, .constructTransport .streamableHttp url,
             .connectAttempt .streamableHttp, .connectDone .streamableHttp false,
             .constructTransport .sse url, .constructClient 1],
            [.connectDone .sse false], ?_, ?_, ?_, ?_⟩ <;>
      simp [connectWithBackwardsCompatibility, hm, hl]

/-- C4, witness: the decomposition at a concrete failing-modern behavior. -/
theorem legacy_attempt_once_after_modern_failure_witness :
    (ServerBehavior.mk (.err "x") .ok).modern = .err "x" ∧
    (∃ pre post,
      (connectWithBackwardsCompatibility ⟨.err "x", .ok⟩ "u").events
        = pre ++ Event.connectAttempt .sse :: post ∧
      Event.connectAttempt .sse ∉ pre ∧
      Event.connectAttempt .sse ∉ post ∧
      Event.connectDone .streamableHttp false ∈ pre) :=
  ⟨rfl, legacy_attempt_once_after_modern_failure ⟨.err "x", .ok⟩ "u" "x" rfl⟩

/-- C5: whenever the modern (Streamable HTTP) connect attempt succeeds,
negotiation returns the first client (allocation id 0) with the modern
transport and transport type `"streamable-http"`, and the trace contains
no legacy transport construction, no legacy connect attempt, and no
construction of a second client. -/
theorem modern_success_no_legacy (b : ServerBehavior) (url : String)
    (hm : b.modern = .ok) :
    (connectWithBackwardsCompatibility b url).result
      = .success
          { client := { name := "backwards-compatible-client", version := "1.0.0",
                        allocId := 0 },
            transport := { kind := .streamableHttp, baseUrl := url },
            transportType := "streamable-http" } ∧
    (∀ u, Event.constructTransport .sse u
        ∉ (connectWithBackwardsCompatibility b url).events) ∧
    Event.connectAttempt .sse ∉ (connectWithBackwardsCompatibility b url).events ∧
    Event.constructClient 1 ∉ (connectWithBackwardsCompatibility b url).events := by
  refine ⟨?_, fun u => ?_, ?_, ?_⟩ <;> simp [connectWithBackwardsCompatibility, hm]

/-- C5, witness: the modern-success conclusion at a concrete behavior. -/
theorem modern_success_no_legacy_witness :
    (ServerBehavior.mk .ok .ok).modern = .ok ∧
    ((connectWithBackwardsCompatibility ⟨.ok, .ok⟩ "u").result
        = .success
            { client := { name := "backwards-compatible-client", version := "1.0.0",
                          allocId := 0 },
              transport := { kind := .streamableHttp, baseUrl := "u" },
              transportType := "streamable-http" } ∧
      (∀ u, Event.constructTransport .sse u
          ∉ (connectWithBackwardsCompatibility ⟨.ok, .ok⟩ "u").events) ∧
      Event.connectAttempt .sse ∉ (connectWithBackwardsCompatibility ⟨.ok, .ok⟩ "u").events ∧
      Event.constructClient 1 ∉ (connectWithBackwardsCompatibility ⟨.ok, .ok⟩ "u").events) :=
  ⟨rfl, modern_success_no_legacy ⟨.ok, .ok⟩ "u" rfl⟩

/-- C6: when the modern attempt fails and the legacy attempt succeeds,
negotiation returns the freshly constructed second client (allocation
id 1), distinct from the client of the modern attempt (allocation id 0),
with the legacy transport bound to the same server URL as the modern
transport, and transport type `"sse"`. -/
theorem legacy_fallback_success (b : ServerBehavior) (url e : String)
    (hm : b.modern = .err e) (hl : b.legacy = .ok) :
    (connectWithBackwardsCompatibility b url).result
      = .success
          { client := { name := "backwards-compatible-client", version := "1.0.0",
                        allocId := 1 },
            transport := { kind := .sse, baseUrl := url },
            transportType := "sse" } ∧
    ({ name := "backwards-compatible-client", version := "1.0.0", allocId := 1 } : Client)
      ≠ { name := "backwards-compatible-client", version := "1.0.0", allocId := 0 } ∧
    Event.constructClient 0 ∈ (connectWithBackwardsCompatibility b url).events ∧
    Event.constructClient 1 ∈ (connectWithBackwardsCompatibility b url).events ∧
    Event.constructTransport .streamableHttp url
      ∈ (connectWithBackwardsCompatibility b url).events ∧
    Event.constructTransport .sse url
      ∈ (connectWithBackwardsCompatibility b url).events := by
  refine ⟨?_, by decide, ?_, ?_, ?_, ?_⟩ <;>
    simp [connectWithBackwardsCompatibility, hm, hl]

/-- C6, witness: the legacy-fallback conclusion at a concrete behavior. -/
theorem legacy_fallback_success_witness :
    (ServerBehavior.mk (.err "e") .ok).modern = .err "e" ∧
    (ServerBehavior.mk (.err "e") .ok).legacy = .ok ∧
    ((connectWithBackwardsCompatibility ⟨.err "e", .ok⟩ "u").result
        = .success
            { client := { name := "backwards-compatible-client", version := "1.0.0",
                          allocId := 1 },
              transport := { kind := .sse, baseUrl := "u" },
              transportType := "sse" } ∧
      ({ name := "backwards-compatible-client", version := "1.0.0", allocId := 1 } : Client)
        ≠ { name := "backwards-compatible-client", version := "1.0.0", allocId := 0 } ∧
      Event.constructClient 0 ∈ (connectWithBackwardsCompatibility ⟨.err "e", .ok⟩ "u").events ∧
      Event.constructClient 1 ∈ (connectWithBackwardsCompatibility ⟨.err "e", .ok⟩ "u").events ∧
      Event.constructTransport .streamableHttp "u"
        ∈ (connectWithBackwardsCompatibility ⟨.err "e", .ok⟩ "u").events ∧
      Event.constructTransport .sse "u"
        ∈ (connectWithBackwardsCompatibility ⟨.err "e", .ok⟩ "u").events) :=
  ⟨rfl, rfl, legacy_fallback_success ⟨.err "e", .ok⟩ "u" "e" rfl rfl⟩

/-- C7: the outcome of the browser-launch subprocess is never surfaced:
a broker run is identical whether or not the launch failed (`exec` is
invoked without a completion callback), and the pending authorization
result is determined by the first inbound request alone. -/
theorem browser_launch_failure_not_surfaced (platform authUrl : String)
    (reqUrl : Option String) :
    (∀ launchFails launchFails' : Bool,
        oauthCallbackFlow platform authUrl launchFails reqUrl
          = oauthCallbackFlow platform authUrl launchFails' reqUrl) ∧
    (∀ launchFails : Bool,
        (oauthCallbackFlow platform authUrl launchFails reqUrl).firstRequest.resolution
          = (handleCallbackRequest reqUrl).resolution) :=
  ⟨fun _ _ => rfl, fun _ => rfl⟩

/-- C8: the browser-launch command word is a pure function of the host
platform — `start` on win32, `open` on darwin, `xdg-open` on every other
platform — and the command line handed to `exec` carries the
authorization URL as its sole argument: the shell splits it into exactly
the command word and the URL. -/
theorem openCommand_platform_sole_argument :
    openCommand "win32" = "start" ∧
    openCommand "darwin" = "open" ∧
    (∀ p, ¬ p = "win32" → ¬ p = "darwin" → openCommand p = "xdg-open") ∧
    (∀ p url, url.data.all (fun c => !(c = '"')) = true →
        shellWords (browserLaunchCommand p url) = [openCommand p, url]) := by
  refine ⟨rfl, rfl, ?_, ?_⟩
  · intro p h1 h2
    simp [openCommand, h1, h2]
  · intro p url hu
    show shellWords (openCommand p ++ " \"" ++ url ++ "\"") = [openCommand p, url]
    have hcmd : openCommand p = "start" ∨ openCommand p = "open"
        ∨ openCommand p = "xdg-open" := by
      unfold openCommand
      split
      · exact Or.inl rfl
      · split
        · exact Or.inr (Or.inl rfl)
        · exact Or.inr (Or.inr rfl)
    rcases hcmd with h | h | h <;> rw [h] <;>
      exact shellWords_command _ _ (by decide) (by decide) hu

/-- C8, witness: on a platform that is neither win32 nor darwin the
command is `xdg-open`, and the command line splits into the command word
and the URL only. -/
theorem openCommand_platform_sole_argument_witness :
    ¬ "linux" = "win32" ∧ ¬ "linux" = "darwin" ∧
    openCommand "linux" = "xdg-open" ∧
    ("http://auth.example/authorize?x=1" : String).data.all (fun c => !(c = '"'))
      = true ∧
    shellWords (browserLaunchCommand "linux" "http://auth.example/authorize?x=1")
      = [openCommand "linux", "http://auth.example/authorize?x=1"] :=
  ⟨by decide, by decide,
    openCommand_platform_sole_argument.2.2.1 "linux" (by decide) (by decide),
    by decide,
    openCommand_platform_sole_argument.2.2.2 "linux"
      "http://auth.example/authorize?x=1" (by decide)⟩

/-- C9: every broker run binds the listener to the fixed port 8090, and
that port matches the redirect URI `http://localhost:8090/callback`
registered with the OAuth provider, both as the provider's redirect URL
and as the sole entry of its registration metadata's `redirect_uris`. -/
theorem listener_port_matches_redirect_uri :
    (∀ platform authUrl launchFails reqUrl,
        (oauthCallbackFlow platform authUrl launchFails reqUrl).listenPort = 8090) ∧
    provider.redirectUrl = "http://localhost:8090/callback" ∧
    provider.metadata.redirect_uris = ["http://localhost:8090/callback"] ∧
    provider.metadata.redirect_uris = [provider.redirectUrl] ∧
    uriPort provider.redirectUrl = some 8090 := by
  refine ⟨fun _ _ _ _ => rfl, rfl, rfl, rfl, by decide⟩

/-- C10, counterexample: an explicit but empty first command-line
argument does not replace the default verbatim — the JavaScript `||`
falls back to the default on the empty string. -/
theorem serverUrl_empty_arg_counterexample :
    serverUrl [""] = "http://localhost:3000/mcp" ∧ ¬ serverUrl [""] = "" := by
  decide

/-- C10 (amended): with no first command-line argument, or with an empty
first argument, the server URL is the default
`http://localhost:3000/mcp`; a non-empty first argument replaces the
default verbatim. -/
theorem serverUrl_default_behavior :
    serverUrl [] = defaultServerUrl ∧
    (∀ rest, serverUrl ("" :: rest) = defaultServerUrl) ∧
    (∀ a rest, ¬ a = "" → serverUrl (a :: rest) = a) := by
  refine ⟨rfl, fun rest => by simp [serverUrl], fun a rest h => by simp [serverUrl, h]⟩

/-- C10, witness: a concrete non-empty argument is used verbatim. -/
theorem serverUrl_default_behavior_witness :
    ¬ "http://example.com/mcp" = "" ∧
    serverUrl ["http://example.com/mcp"] = "http://example.com/mcp" :=
  ⟨by decide, serverUrl_default_behavior.2.2 "http://example.com/mcp" [] (by decide)⟩

end SseFallbackClient
